import Mathlib

/-!
# Cal Pal worker: the request dispatcher of `index.js` and `index_v2.js`

A shallow embedding of the two revisions of the worker's `fetch` handler.

* JSON values are the type `Json`; a JavaScript value of the program is a `Value`,
  that is `Option Json`, where `none` stands for `undefined`. An object is the sequence
  of its member definitions, read by `lookup`: the last definition of a name wins, as in
  `JSON.parse` and in an object literal with a spread. The order of the keys of an
  object is not modelled.
* Numbers are integers. The program only tests them for truthiness, compares them, prints
  them and hands them to `parseInt`; the embedding is exact for the integers below `2^53`
  in absolute value. `NaN` arises only as a result of `parseInt`, which is an `Option Int`
  with `none` for `NaN`; `JSON.stringify` writes it as `null`.
* The platform is a parameter, `Env`: `JSON.parse`, the global `fetch` that reaches
  the scheduling API, and `String.prototype.toLowerCase`.
* An exception is the text of its `message`. The texts of the errors raised by the
  engine itself (reading a property of `null`, calling what is not a function) are those
  of V8.
* The handler returns an `Outcome`: the response together with the effects it performed,
  in order (reading and parsing the request body, each request sent upstream). Every
  action handler is a `Plan`: what precedes its one request upstream, and what it makes of
  the answer; `run` puts the two inside the `try` of `fetch`.
* The definitions under "Vocabulary of the claims" are not taken from the source: they
  state what the specification says, to be compared with the handlers.
-/

namespace CalPal

/-! ## Values -/

/-- A JSON value. -/
inductive Json where
  | null
  | bool (b : Bool)
  | num (n : Int)
  | str (s : String)
  | arr (items : List Json)
  | obj (members : List (String × Json))

/-- A JavaScript value of the program: `none` is `undefined`. -/
abbrev Value := Option Json

/-- JavaScript truthiness (`ToBoolean`). -/
def truthy : Value → Bool
  | none => false
  | some .null => false
  | some (.bool b) => b
  | some (.num n) => decide (n ≠ 0)
  | some (.str s) => decide (s ≠ "")
  | some (.arr _) => true
  | some (.obj _) => true

/-- The operator `a || b`. -/
def orElse (a b : Value) : Value :=
  if truthy a then a else b

/-- The value of the member `name` in a sequence of member definitions: the last one wins. -/
def lookup (name : String) : List (String × Json) → Value
  | [] => none
  | (k, v) :: rest =>
    match lookup name rest with
    | some w => some w
    | none => if k = name then some v else none

/-- The message of the `TypeError` of a property read on `undefined` or `null`. -/
def cannotRead (what name : String) : String :=
  "Cannot read properties of " ++ what ++ " (reading '" ++ name ++ "')"

/-- The message of the `TypeError` of a call of a method the value does not have. -/
def notAFunction (what : String) : String :=
  what ++ " is not a function"

/-- The property read `v.name`, for the names the program reads (none of them is a built-in
property of a string, a number, a boolean or an array): it throws on `undefined` and
`null`, looks the member up in an object and is `undefined` on every other value. -/
def getProp (v : Value) (name : String) : Except String Value :=
  match v with
  | none => .error (cannotRead "undefined" name)
  | some .null => .error (cannotRead "null" name)
  | some (.obj members) => .ok (lookup name members)
  | some _ => .ok none

/-- The operator `v?.name`. -/
def getPropOpt (v : Value) (name : String) : Except String Value :=
  match v with
  | none => .ok none
  | some .null => .ok none
  | some w => getProp (some w) name

/-- The operator `a === b` on values that come from two different JSON texts or from
a literal: primitives are compared by value, an array or an object is never identical to
one from elsewhere. -/
def strictEq : Value → Value → Bool
  | none, none => true
  | some .null, some .null => true
  | some (.bool a), some (.bool b) => decide (a = b)
  | some (.num a), some (.num b) => decide (a = b)
  | some (.str a), some (.str b) => decide (a = b)
  | _, _ => false

/-- The decimal text of an integer (`Number::toString`). -/
def intText (n : Int) : List Char :=
  if n < 0 then '-' :: Nat.toDigits 10 n.natAbs else Nat.toDigits 10 n.natAbs

mutual
/-- The conversion `ToString` of a JSON value. -/
def Json.toJsString : Json → String
  | .null => "null"
  | .bool true => "true"
  | .bool false => "false"
  | .num n => String.mk (intText n)
  | .str s => s
  | .arr items => Json.joinItems items
  | .obj _ => "[object Object]"
/-- The text `Array.prototype.join` gives with the separator `,`: `null` prints as the
empty text. -/
def Json.joinItems : List Json → String
  | [] => ""
  | x :: rest =>
    (match x with
      | .null => ""
      | y => Json.toJsString y) ++
    (match rest with
      | [] => ""
      | _ => "," ++ Json.joinItems rest)
end

/-- The conversion `ToString` of a value, as a template literal applies it. -/
def toJsString : Value → String
  | none => "undefined"
  | some v => v.toJsString

/-- The white space `parseInt` skips (`StrWhiteSpaceChar`). -/
def isWhiteSpace (c : Char) : Bool :=
  decide (c.toNat ∈ [0x09, 0x0A, 0x0B, 0x0C, 0x0D, 0x20, 0xA0, 0x1680, 0x2028, 0x2029,
    0x202F, 0x205F, 0x3000, 0xFEFF]) || (decide (0x2000 ≤ c.toNat) && decide (c.toNat ≤ 0x200A))

/-- The class `\d` of a regular expression, and the digits of radix 10. -/
def isDigit (c : Char) : Bool :=
  decide (48 ≤ c.toNat) && decide (c.toNat ≤ 57)

/-- The value of a decimal digit. -/
def digitValue (c : Char) : Nat :=
  c.toNat - 48

/-- The number a sequence of decimal digits denotes. -/
def decimalValue (ds : List Char) : Nat :=
  ds.foldl (fun acc c => 10 * acc + digitValue c) 0

/-- The function `parseInt(text, 10)` on a text: leading white space is skipped, a sign is
read, then the longest run of digits; `none` is `NaN`. -/
def parseIntText (text : List Char) : Option Int :=
  let s := text.dropWhile isWhiteSpace
  let negative := decide (s.head? = some '-')
  let unsigned := if s.head? = some '-' ∨ s.head? = some '+' then s.tail else s
  let z := unsigned.takeWhile isDigit
  if z = [] then none
  else some (if negative then -(decimalValue z : Int) else (decimalValue z : Int))

/-- The call `parseInt(v, 10)`: the value is converted to a text first. -/
def parseInt (v : Value) : Option Int :=
  parseIntText (toJsString v).data

/-- What `JSON.stringify` writes for a number: `NaN` becomes `null`. -/
def numberToJson : Option Int → Json
  | none => .null
  | some n => .num n

/-- What `JSON.stringify` writes for an object literal: a member whose value is
`undefined` is left out. -/
def jsonObject (fields : List (String × Value)) : Json :=
  .obj (fields.filterMap fun kv => kv.2.map fun v => (kv.1, v))

/-- The test `/^\+[1-9]\d{1,14}$/` of `attendeePhone.match`. -/
def matchesE164 (s : String) : Bool :=
  match s.data with
  | plus :: first :: more =>
    decide (plus = '+') && decide (49 ≤ first.toNat) && decide (first.toNat ≤ 57) &&
      more.all isDigit && decide (1 ≤ more.length) && decide (more.length ≤ 14)
  | _ => false

/-- The call `text.replace(c, '')` with a one-character pattern: the first occurrence is
removed. -/
def removeFirst (c : Char) : List Char → List Char
  | [] => []
  | x :: xs => if x = c then xs else x :: removeFirst c xs

/-- The own enumerable properties a spread `...v` copies into an object literal. -/
def spreadMembers : Json → List (String × Json)
  | .obj members => members
  | .arr items => items.enum.map fun p => (String.mk (Nat.toDigits 10 p.1), p.2)
  | .str s => s.data.enum.map fun p => (String.mk (Nat.toDigits 10 p.1), Json.str (String.mk [p.2]))
  | _ => []

/-! ## Requests, responses, platform -/

/-- The inbound request: its method, what `request.headers.get('X-Cal-Api-Key')` returns
(`none` is `null`) and the text of its body. -/
structure Request where
  method : String
  apiKey : Option String
  body : String

/-- A request to the scheduling API: `query` holds the entries of the `URLSearchParams`
that follow the `?` of the URL, `body` the value whose JSON text is sent. -/
structure UpstreamRequest where
  method : String
  url : String
  query : List (String × String)
  headers : List (String × String)
  body : Option Json

/-- A response of the scheduling API: its status and the text of its body. -/
structure UpstreamResponse where
  status : Nat
  body : String

/-- The property `Response.ok`. -/
def UpstreamResponse.ok (r : UpstreamResponse) : Bool :=
  decide (200 ≤ r.status) && decide (r.status ≤ 299)

/-- The body of a response of the worker. -/
inductive Body where
  | empty
  | text (s : String)
  | json (v : Json)

/-- A response of the worker. -/
structure Response where
  status : Nat
  headers : List (String × String)
  body : Body

/-- What the handler does besides answering. -/
inductive Effect where
  | readBody
  | upstream (r : UpstreamRequest)

/-- The response of the handler and the effects it performed, in order. -/
structure Outcome where
  response : Response
  effects : List Effect

/-- The platform: `JSON.parse` (the value, or the message of the `SyntaxError`), the global
`fetch` (the response, or the message of the network failure) and `toLowerCase`, which
maps no text but the empty one to the empty text. -/
structure Env where
  jsonParse : String → Except String Json
  fetch : UpstreamRequest → Except String UpstreamResponse
  toLowerCase : String → String
  toLowerCase_eq_empty : ∀ s, toLowerCase s = "" ↔ s = ""

/-- The constructor `new Response(JSON.stringify(body), {status, headers})` with a status
that is not a constant: it throws a `RangeError` outside 200..599 and a `TypeError` for
a status that admits no body. -/
def newResponse (status : Nat) (headers : List (String × String)) (body : Json) :
    Except String Response :=
  if status < 200 ∨ 599 < status then
    .error "Responses may only be constructed with status codes in the range 200 to 599, inclusive."
  else if status = 204 ∨ status = 205 ∨ status = 304 then
    .error "Response with null body status (101, 204, 205, or 304) cannot have a body."
  else .ok ⟨status, headers, .json body⟩

/-- The headers `{ 'Content-Type': 'application/json' }`. -/
def jsonHeaders : List (String × String) :=
  [("Content-Type", "application/json")]

/-- The answer to `OPTIONS`. -/
def corsResponse : Response :=
  ⟨200, [("Access-Control-Allow-Origin", "*"), ("Access-Control-Allow-Methods", "POST"),
    ("Access-Control-Allow-Headers", "Content-Type, X-Cal-Api-Key")], .empty⟩

/-- The answer to a method that is neither `OPTIONS` nor `POST`. -/
def methodNotAllowed : Response :=
  ⟨405, [], .text "Method Not Allowed"⟩

/-- The method `calResponse.json()`. -/
def UpstreamResponse.json (env : Env) (r : UpstreamResponse) : Except String Json :=
  env.jsonParse r.body

/-- The receiver of an array method: the items of an array, a `TypeError` on anything
else. -/
def arrayItems (call : String) : Value → Except String (List Json)
  | some (.arr items) => .ok items
  | _ => .error (notAFunction call)

/-- The call `v.toLowerCase()`: a `TypeError` on what is not a string. -/
def toLowerCase (env : Env) (call : String) : Value → Except String String
  | some (.str s) => .ok (env.toLowerCase s)
  | none => .error (cannotRead "undefined" "toLowerCase")
  | some .null => .error (cannotRead "null" "toLowerCase")
  | _ => .error (notAFunction call)

/-- The method `Array.prototype.some`: it stops at the first item the callback accepts. -/
def arraySome (callback : Json → Except String Bool) : List Json → Except String Bool
  | [] => .ok false
  | x :: rest => do
    if (← callback x) then pure true else arraySome callback rest

/-- The method `Array.prototype.filter`. -/
def arrayFilter (callback : Json → Except String Bool) :
    List Json → Except String (List Json)
  | [] => .ok []
  | x :: rest => do
    let keep ← callback x
    let others ← arrayFilter callback rest
    pure (if keep then x :: others else others)

/-- The method `Array.prototype.map`. -/
def arrayMap (callback : Json → Except String Json) : List Json → Except String (List Json)
  | [] => .ok []
  | x :: rest => do
    let y ← callback x
    let others ← arrayMap callback rest
    pure (y :: others)

/-- A handler up to its request upstream: the request and what it makes of the answer. -/
abbrev Plan := UpstreamRequest × (UpstreamResponse → Except String Response)

/-- A handler inside the `try` of `fetch`, after the body was read: an exception before
the request upstream, a failure of the request itself and an exception after it all end
in `onError`, the `catch` block. -/
def run (env : Env) (onError : String → Response) (plan : Except String Plan) : Outcome :=
  match plan with
  | .error message => ⟨onError message, [.readBody]⟩
  | .ok (calRequest, reshape) =>
    match env.fetch calRequest with
    | .error message => ⟨onError message, [.readBody, .upstream calRequest]⟩
    | .ok calResponse =>
      match reshape calResponse with
      | .error message => ⟨onError message, [.readBody, .upstream calRequest]⟩
      | .ok response => ⟨response, [.readBody, .upstream calRequest]⟩

/-- The text `Cal.com API error: ${calResponse.status}`. -/
def apiError (status : Nat) : String :=
  "Cal.com API error: " ++ Nat.repr status

/-! ## The current revision, `index_v2.js` -/

namespace IndexV2

/-- Lines 326-329, the `catch` block: status 500 with the message of the exception. -/
def internalError (message : String) : Response :=
  ⟨500, jsonHeaders, .json (.obj [("error", .str message)])⟩

/-- Lines 35-38: the answer to a request without the key. -/
def missingKey : Response :=
  ⟨401, jsonHeaders, .json (.obj [("error", .str "Missing X-Cal-Api-Key header")])⟩

/-- The message of lines 318-320. -/
def unknownActionMessage : String :=
  "Unknown action. Supported actions: get_all_bookings, create_booking, cancel_booking, reschedule_booking"

/-- Lines 318-323: the answer to an action that is none of the four. -/
def unknownAction : Response :=
  ⟨400, jsonHeaders, .json (.obj [("error", .str unknownActionMessage)])⟩

/-- Line 43: `data.args?.action || data.action`. -/
def resolveAction (data : Json) : Except String Value := do
  let args ← getProp (some data) "args"
  let nested ← getPropOpt args "action"
  if truthy nested then pure nested else getProp (some data) "action"

/-- Lines 46-50: the headers of every request upstream. -/
def calHeaders (userApiKey : String) : List (String × String) :=
  [("Authorization", "Bearer " ++ userApiKey), ("Content-Type", "application/json"),
    ("cal-api-version", "2024-08-13")]

/-- Lines 57, 132, 230, 271: `data.args || data`. -/
def params (data : Json) : Except String Value := do
  let args ← getProp (some data) "args"
  pure (orElse args (some data))

/-- Lines 102-103: the truthiness of the constant `emailMatch`,
`email && att.email && att.email.toLowerCase() === email.toLowerCase()`. -/
def emailMatch (env : Env) (email : Value) (att : Json) : Except String Bool :=
  if truthy email then do
    let attEmail ← getProp (some att) "email"
    if truthy attEmail then do
      let left ← toLowerCase env "att.email.toLowerCase" attEmail
      let right ← toLowerCase env "email.toLowerCase" email
      pure (decide (left = right))
    else pure false
  else pure false

/-- Lines 104-105: the truthiness of the constant `phoneMatch`,
`phoneNumber && att.phoneNumber && att.phoneNumber === phoneNumber`. -/
def phoneMatch (phoneNumber : Value) (att : Json) : Except String Bool :=
  if truthy phoneNumber then do
    let attPhone ← getProp (some att) "phoneNumber"
    pure (truthy attPhone && strictEq attPhone phoneNumber)
  else pure false

/-- Lines 101-107: the callback of `attendees.some`. Both constants are computed before
the result is. -/
def attendeeMatches (env : Env) (email phoneNumber : Value) (att : Json) :
    Except String Bool := do
  let emailMatch ← emailMatch env email att
  let phoneMatch ← phoneMatch phoneNumber att
  pure (emailMatch || phoneMatch)

/-- Lines 99-108: the callback of `allBookings.filter`. -/
def bookingMatches (env : Env) (email phoneNumber : Value) (booking : Json) :
    Except String Bool := do
  let attendees ← getProp (some booking) "attendees"
  let items ← arrayItems "attendees.some" (orElse attendees (some (.arr [])))
  arraySome (attendeeMatches env email phoneNumber) items

/-- Lines 111-117: the callback of `validBookings.map`. -/
def simplify (b : Json) : Except String Json := do
  let uid ← getProp (some b) "uid"
  let title ← getProp (some b) "title"
  let start ← getProp (some b) "start"
  let finish ← getProp (some b) "end"
  let status ← getProp (some b) "status"
  pure (jsonObject [("uid", uid), ("title", title), ("startTime", start),
    ("endTime", finish), ("status", status)])

/-- Lines 82-91, 200-208, 247-255, 295-303: the answer to an upstream status that is not
2xx. -/
def upstreamError (calResponse : UpstreamResponse) (details : Json) : Except String Response :=
  newResponse calResponse.status jsonHeaders
    (.obj [("error", .str (apiError calResponse.status)), ("details", details)])

/-- Lines 82-124: what `get_all_bookings` makes of the answer of the scheduling API. -/
def getAllBookingsResponse (env : Env) (email phoneNumber : Value)
    (calResponse : UpstreamResponse) : Except String Response :=
  if !calResponse.ok then
    upstreamError calResponse (.str calResponse.body)
  else do
    let result ← calResponse.json env
    let resultData ← getProp (some result) "data"
    let allBookings ← arrayItems "allBookings.filter" (orElse resultData (some (.arr [])))
    let validBookings ← arrayFilter (bookingMatches env email phoneNumber) allBookings
    let simplifiedList ← arrayMap simplify validBookings
    pure ⟨200, jsonHeaders, .json (.obj [("count", .num simplifiedList.length),
      ("bookings", .arr simplifiedList)])⟩

/-- Lines 56-125: `get_all_bookings`. The URL ends in the encoded `queryParams`. -/
def getAllBookings (env : Env) (userApiKey : String) (data : Json) : Except String Plan := do
  let params ← params data
  let email ← getProp params "email"
  let phoneNumber ← getProp params "phoneNumber"
  if !truthy email && !truthy phoneNumber then
    throw "Must provide 'email' or 'phoneNumber' parameter."
  let queryParams := [("status", "upcoming"), ("take", "100")] ++
    (if truthy email then [("attendeeEmail", toJsString email)] else [])
  pure (⟨"GET", "https://api.cal.com/v2/bookings?", queryParams, calHeaders userApiKey, none⟩,
    getAllBookingsResponse env email phoneNumber)

/-- The test `typeof v === 'object'` on a truthy value. -/
def isObjectType : Value → Bool
  | some (.obj _) => true
  | some (.arr _) => true
  | _ => false

/-- The test `Array.isArray(v)`. -/
def isArray : Value → Bool
  | some (.arr _) => true
  | _ => false

/-- Line 157: the email made from the phone, `attendeePhone.replace('+', '')` followed by
the fixed domain. -/
def emailFromPhone (attendeePhone : String) : String :=
  String.mk (removeFirst '+' attendeePhone.data) ++ "@calpalworker.com"

/-- Lines 160-188: `bookingBody`, as `JSON.stringify` writes it. -/
def bookingBody (startTime eventTypeId attendeeName attendeeEmailFinal timezone attendeePhone
    metadata guests lengthInMinutes : Value) : Json :=
  jsonObject ([("start", startTime), ("eventTypeId", some (numberToJson (parseInt eventTypeId))),
    ("attendee", some (jsonObject ([("name", attendeeName), ("email", attendeeEmailFinal),
      ("timeZone", orElse timezone (some (.str "UTC")))] ++
      (if truthy attendeePhone then [("phoneNumber", attendeePhone)] else []))))] ++
    (if truthy metadata && isObjectType metadata then [("metadata", metadata)] else []) ++
    (if truthy guests && isArray guests then [("guests", guests)] else []) ++
    (if truthy lengthInMinutes then
      [("lengthInMinutes", some (numberToJson (parseInt lengthInMinutes)))] else []))

/-- Lines 198-222: what `create_booking` makes of the answer of the scheduling API. -/
def createBookingResponse (env : Env) (calResponse : UpstreamResponse) :
    Except String Response := do
  let result ← calResponse.json env
  if !calResponse.ok then
    upstreamError calResponse result
  else
    let resultData ← getProp (some result) "data"
    let bookingData := orElse resultData (some result)
    let uid ← getProp bookingData "uid"
    let title ← getProp bookingData "title"
    let start ← getProp bookingData "start"
    let finish ← getProp bookingData "end"
    let status ← getProp bookingData "status"
    pure ⟨200, jsonHeaders, .json (jsonObject [("success", some (.bool true)),
      ("bookingUid", uid), ("title", title), ("startTime", start), ("endTime", finish),
      ("status", status),
      ("confirmationMessage", some (.str ("Booking confirmed for " ++ toJsString start)))])⟩

/-- Lines 131-223: `create_booking`. -/
def createBooking (env : Env) (userApiKey : String) (data : Json) : Except String Plan := do
  let params ← params data
  let eventTypeId ← getProp params "eventTypeId"
  let startTime ← getProp params "startTime"
  let attendeeName ← getProp params "attendeeName"
  let attendeeEmail ← getProp params "attendeeEmail"
  let attendeePhone ← getProp params "attendeePhone"
  let timezone ← getProp params "timezone"
  let metadata ← getProp params "metadata"
  let guests ← getProp params "guests"
  let lengthInMinutes ← getProp params "lengthInMinutes"
  if !truthy eventTypeId then throw "Missing 'eventTypeId' parameter."
  if !truthy startTime then throw "Missing 'startTime' parameter."
  if !truthy attendeeName then throw "Missing 'attendeeName' parameter."
  if !truthy attendeePhone then throw "Missing 'attendeePhone' parameter."
  let phone ← match attendeePhone with
    | some (.str s) => pure s
    | _ => throw (notAFunction "attendeePhone.match")
  if !matchesE164 phone then throw "Phone must be in E164 format (e.g., +15551234567)"
  let attendeeEmailFinal := orElse attendeeEmail (some (.str (emailFromPhone phone)))
  pure (⟨"POST", "https://api.cal.com/v2/bookings", [], calHeaders userApiKey,
      some (bookingBody startTime eventTypeId attendeeName attendeeEmailFinal timezone
        attendeePhone metadata guests lengthInMinutes)⟩,
    createBookingResponse env)

/-- Lines 245-263: what `cancel_booking` makes of the answer of the scheduling API. The
members of `result` follow the two fixed ones in the object literal, so that a member of
`result` replaces a fixed one of its name. -/
def cancelBookingResponse (env : Env) (calResponse : UpstreamResponse) :
    Except String Response := do
  let result ← calResponse.json env
  if !calResponse.ok then
    upstreamError calResponse result
  else
    pure ⟨200, jsonHeaders, .json (.obj ([("success", .bool true),
      ("message", .str "Booking cancelled successfully")] ++ spreadMembers result))⟩

/-- Lines 229-264: `cancel_booking`. -/
def cancelBooking (env : Env) (userApiKey : String) (data : Json) : Except String Plan := do
  let params ← params data
  let bookingUid ← getProp params "bookingUid"
  let cancellationReason ← getProp params "cancellationReason"
  if !truthy bookingUid then throw "Missing 'bookingUid' parameter."
  pure (⟨"POST", "https://api.cal.com/v2/bookings/" ++ toJsString bookingUid ++ "/cancel", [],
      calHeaders userApiKey,
      some (jsonObject [("cancellationReason",
        orElse cancellationReason (some (.str "User requested cancellation via Voice AI")))])⟩,
    cancelBookingResponse env)

/-- Lines 293-314: what `reschedule_booking` makes of the answer of the scheduling API. -/
def rescheduleBookingResponse (env : Env) (bookingUid newStartTime : Value)
    (calResponse : UpstreamResponse) : Except String Response := do
  let result ← calResponse.json env
  if !calResponse.ok then
    upstreamError calResponse result
  else
    let resultData ← getProp (some result) "data"
    let bookingData := orElse resultData (some result)
    let uid ← getProp bookingData "uid"
    let start ← getProp bookingData "start"
    pure ⟨200, jsonHeaders, .json (jsonObject [("success", some (.bool true)),
      ("bookingUid", orElse uid bookingUid),
      ("newStartTime", orElse start newStartTime),
      ("message", some (.str ("Booking rescheduled to " ++
        toJsString (orElse start newStartTime))))])⟩

/-- Lines 270-315: `reschedule_booking`. -/
def rescheduleBooking (env : Env) (userApiKey : String) (data : Json) :
    Except String Plan := do
  let params ← params data
  let bookingUid ← getProp params "bookingUid"
  let newStartTime ← getProp params "newStartTime"
  let reschedulingReason ← getProp params "reschedulingReason"
  if !truthy bookingUid then throw "Missing 'bookingUid' parameter."
  if !truthy newStartTime then throw "Missing 'newStartTime' parameter."
  let rescheduleBody := jsonObject ([("start", newStartTime)] ++
    (if truthy reschedulingReason then [("reschedulingReason", reschedulingReason)] else []))
  pure (⟨"POST", "https://api.cal.com/v2/bookings/" ++ toJsString bookingUid ++ "/reschedule",
      [], calHeaders userApiKey, some rescheduleBody⟩,
    rescheduleBookingResponse env bookingUid newStartTime)

/-- The test `action === name`. -/
def isAction (action : Value) (name : String) : Bool :=
  strictEq action (some (.str name))

/-- Lines 41-323: the body of the `try` once the body was parsed into `data`. -/
def dispatch (env : Env) (userApiKey : String) (data : Json) : Outcome :=
  match resolveAction data with
  | .error message => ⟨internalError message, [.readBody]⟩
  | .ok action =>
    if isAction action "get_all_bookings" then
      run env internalError (getAllBookings env userApiKey data)
    else if isAction action "create_booking" then
      run env internalError (createBooking env userApiKey data)
    else if isAction action "cancel_booking" then
      run env internalError (cancelBooking env userApiKey data)
    else if isAction action "reschedule_booking" then
      run env internalError (rescheduleBooking env userApiKey data)
    else ⟨unknownAction, [.readBody]⟩

/-- Lines 15-331: the handler `fetch`. -/
def fetch (env : Env) (request : Request) : Outcome :=
  if request.method = "OPTIONS" then ⟨corsResponse, []⟩
  else if request.method ≠ "POST" then ⟨methodNotAllowed, []⟩
  else
    match request.apiKey with
    | none => ⟨missingKey, []⟩
    | some userApiKey =>
      if userApiKey = "" then ⟨missingKey, []⟩
      else
        match env.jsonParse request.body with
        | .error message => ⟨internalError message, [.readBody]⟩
        | .ok data => dispatch env userApiKey data

end IndexV2

/-! ## The legacy revision, `index.js` -/

namespace Index

/-- Lines 101-103, the `catch` block. -/
def internalError (message : String) : Response :=
  ⟨500, [], .json (.obj [("error", .str message)])⟩

/-- Line 19: the answer to a request without the key. -/
def missingKey : Response :=
  ⟨401, [], .json (.obj [("error", .str "Missing X-Cal-Api-Key")])⟩

/-- Line 99: the answer to an action that is neither of the two. -/
def unknownAction : Response :=
  ⟨400, [], .json (.obj [("error", .str "Unknown action")])⟩

/-- Line 52: the callback of `attendees.some`. -/
def attendeeMatches (env : Env) (userEmail : Value) (att : Json) : Except String Bool := do
  let attEmail ← getProp (some att) "email"
  let left ← toLowerCase env "att.email.toLowerCase" attEmail
  let right ← toLowerCase env "userEmail.toLowerCase" userEmail
  pure (decide (left = right))

/-- Lines 49-53: the callback of `allBookings.filter`. -/
def bookingMatches (env : Env) (userEmail : Value) (booking : Json) : Except String Bool := do
  let attendees ← getProp (some booking) "attendees"
  let items ← arrayItems "attendees.some" (orElse attendees (some (.arr [])))
  arraySome (attendeeMatches env userEmail) items

/-- Lines 56-61: the callback of `validBookings.map`. -/
def simplify (b : Json) : Except String Json := do
  let uid ← getProp (some b) "uid"
  let title ← getProp (some b) "title"
  let start ← getProp (some b) "start"
  let status ← getProp (some b) "status"
  pure (jsonObject [("uid", uid), ("title", title), ("startTime", start), ("status", status)])

/-- Lines 27-69: `find_bookings`. -/
def findBookings (env : Env) (userApiKey : String) (data : Json) : Except String Plan := do
  let userEmail ← getProp (some data) "email"
  if !truthy userEmail then throw "Missing 'email' parameter."
  pure (⟨"GET", "https://api.cal.com/v2/bookings?status=upcoming&take=100", [],
      [("Authorization", "Bearer " ++ userApiKey), ("cal-api-version", "2024-08-13")], none⟩,
    fun calResponse => do
      let result ← calResponse.json env
      let resultData ← getProp (some result) "data"
      let nested ← getPropOpt resultData "bookings"
      let allBookings ← arrayItems "allBookings.filter"
        (orElse (orElse nested resultData) (some (.arr [])))
      let validBookings ← arrayFilter (bookingMatches env userEmail) allBookings
      let simplifiedList ← arrayMap simplify validBookings
      pure ⟨200, jsonHeaders, .json (.obj [("count", .num simplifiedList.length),
        ("bookings", .arr simplifiedList)])⟩)

/-- Lines 74-97: `cancel_booking`. -/
def cancelBooking (env : Env) (userApiKey : String) (data : Json) : Except String Plan := do
  let bookingUid ← getProp (some data) "bookingUid"
  if !truthy bookingUid then throw "Missing 'bookingUid' parameter."
  let cancellationReason ← getProp (some data) "cancellationReason"
  pure (⟨"POST", "https://api.cal.com/v2/bookings/" ++ toJsString bookingUid ++ "/cancel", [],
      [("Authorization", "Bearer " ++ userApiKey), ("Content-Type", "application/json"),
        ("cal-api-version", "2024-08-13")],
      some (jsonObject [("cancellationReason",
          orElse cancellationReason (some (.str "User requested cancellation via Voice AI"))),
        ("cancelSubsequentBookings", some (.bool true))])⟩,
    fun calResponse => do
      let result ← calResponse.json env
      pure ⟨200, jsonHeaders, .json result⟩)

/-- Lines 21-99: the body of the `try` once the body was parsed into `data`. -/
def dispatch (env : Env) (userApiKey : String) (data : Json) : Outcome :=
  match getProp (some data) "action" with
  | .error message => ⟨internalError message, [.readBody]⟩
  | .ok action =>
    if strictEq action (some (.str "find_bookings")) then
      run env internalError (findBookings env userApiKey data)
    else if strictEq action (some (.str "cancel_booking")) then
      run env internalError (cancelBooking env userApiKey data)
    else ⟨unknownAction, [.readBody]⟩

/-- Lines 2-104: the handler `fetch`. -/
def fetch (env : Env) (request : Request) : Outcome :=
  if request.method = "OPTIONS" then ⟨corsResponse, []⟩
  else if request.method ≠ "POST" then ⟨methodNotAllowed, []⟩
  else
    match request.apiKey with
    | none => ⟨missingKey, []⟩
    | some userApiKey =>
      if userApiKey = "" then ⟨missingKey, []⟩
      else
        match env.jsonParse request.body with
        | .error message => ⟨internalError message, [.readBody]⟩
        | .ok data => dispatch env userApiKey data

end Index

/-! ## Vocabulary of the claims -/

/-- The member `name` of a value, `undefined` where the read would throw. -/
def member (v : Value) (name : String) : Value :=
  match getProp v name with
  | .ok w => w
  | .error _ => none

/-- The request is a `POST` that carries the non-empty key `userApiKey` and whose body is
the JSON text of `data`. -/
def Received (env : Env) (request : Request) (userApiKey : String) (data : Json) : Prop :=
  request.method = "POST" ∧ request.apiKey = some userApiKey ∧ userApiKey ≠ "" ∧
    env.jsonParse request.body = .ok data

/-- A value whose properties can be read: neither `undefined` nor `null`. -/
def Readable (v : Value) : Prop :=
  v ≠ none ∧ v ≠ some .null

/-- The local validation failures of the four handlers of the current revision, with the
message of each, in the order of the checks: `get_all_bookings` with neither `email` nor
`phoneNumber`; `create_booking` without `eventTypeId`, `startTime`, `attendeeName` or
`attendeePhone`, or with a phone that is not E.164; `cancel_booking` without `bookingUid`;
`reschedule_booking` without `bookingUid` or `newStartTime`. It is `none` where the
parameters pass. -/
def validationMessage (action : String) (params : Value) : Option String :=
  if action = "get_all_bookings" then
    if !truthy (member params "email") && !truthy (member params "phoneNumber") then
      some "Must provide 'email' or 'phoneNumber' parameter."
    else none
  else if action = "create_booking" then
    if !truthy (member params "eventTypeId") then some "Missing 'eventTypeId' parameter."
    else if !truthy (member params "startTime") then some "Missing 'startTime' parameter."
    else if !truthy (member params "attendeeName") then some "Missing 'attendeeName' parameter."
    else if !truthy (member params "attendeePhone") then
      some "Missing 'attendeePhone' parameter."
    else
      match member params "attendeePhone" with
      | some (.str s) =>
        if matchesE164 s then none else some "Phone must be in E164 format (e.g., +15551234567)"
      | _ => some (notAFunction "attendeePhone.match")
  else if action = "cancel_booking" then
    if !truthy (member params "bookingUid") then some "Missing 'bookingUid' parameter."
    else none
  else if action = "reschedule_booking" then
    if !truthy (member params "bookingUid") then some "Missing 'bookingUid' parameter."
    else if !truthy (member params "newStartTime") then some "Missing 'newStartTime' parameter."
    else none
  else none

namespace Example

/-- Lower case of the ASCII letters. -/
def asciiLower (s : String) : String :=
  String.mk (s.data.map Char.toLower)

/-- A platform that knows the JSON value of the listed texts only and whose scheduling API
gives one answer to every request. -/
def platform (texts : List (String × Json)) (answer : Except String UpstreamResponse) : Env where
  jsonParse text :=
    match texts.lookup text with
    | some v => .ok v
    | none => .error "Unexpected token"
  fetch _ := answer
  toLowerCase := asciiLower
  toLowerCase_eq_empty s := by
    constructor
    · intro h
      have hd : s.data.map Char.toLower = [] := congrArg String.data h
      have hs : s.data = [] := by simpa using hd
      exact String.ext hs
    · rintro rfl
      rfl

/-- A `create_booking` body whose phone lacks the leading `+`. -/
def createWithoutPlus : Json :=
  .obj [("args", .obj [("action", .str "create_booking"), ("eventTypeId", .str "12"),
    ("startTime", .str "2025-11-23T14:00:00Z"), ("attendeeName", .str "Jo"),
    ("attendeePhone", .str "15551234567")])]

/-- A `cancel_booking` body without `bookingUid`. -/
def cancelWithoutUid : Json :=
  .obj [("action", .str "cancel_booking")]

/-- The `create_booking` body of the scenario of the specification. -/
def createScenario : Json :=
  .obj [("args", .obj [("action", .str "create_booking"), ("eventTypeId", .str "12"),
    ("startTime", .str "2025-11-23T14:00:00Z"), ("attendeeName", .str "Jo"),
    ("attendeePhone", .str "+15551234567")])]

/-- A `get_all_bookings` body that asks for the bookings of an email. -/
def listByEmail : Json :=
  .obj [("args", .obj [("action", .str "get_all_bookings"), ("email", .str "jo@example.com")])]

/-- The `cancel_booking` body of the scenario of the specification. -/
def cancelScenario : Json :=
  .obj [("action", .str "cancel_booking"), ("bookingUid", .str "abc123")]

/-- A `reschedule_booking` body. -/
def rescheduleScenario : Json :=
  .obj [("action", .str "reschedule_booking"), ("bookingUid", .str "abc123"),
    ("newStartTime", .str "2025-11-24T15:00:00Z")]

end Example

/-! ## Lemmas -/

@[simp] theorem bind_ok {α β : Type} (a : α) (f : α → Except String β) :
    (Except.ok a >>= f) = f a := rfl

@[simp] theorem bind_error {α β : Type} (e : String) (f : α → Except String β) :
    (Except.error e >>= f) = Except.error e := rfl

@[simp] theorem pure_eq_ok {α : Type} (a : α) : (pure a : Except String α) = Except.ok a := rfl

@[simp] theorem throw_eq_error {α : Type} (e : String) :
    (throw e : Except String α) = Except.error e := rfl

theorem readable_of_truthy {v : Value} (h : truthy v = true) : Readable v := by
  constructor <;> rintro rfl <;> simp [truthy] at h

theorem readable_of_getProp {v w : Value} {name : String} (h : getProp v name = .ok w) :
    Readable v := by
  constructor <;> rintro rfl <;> simp [getProp] at h

theorem getProp_of_readable {v : Value} (h : Readable v) (name : String) :
    getProp v name = .ok (member v name) := by
  obtain ⟨h1, h2⟩ := h
  cases v with
  | none => exact absurd rfl h1
  | some j => cases j <;> simp_all [getProp, member]

theorem readable_params {data : Json} {params : Value} (h : IndexV2.params data = .ok params) :
    Readable params := by
  unfold IndexV2.params at h
  cases hargs : getProp (some data) "args" with
  | error e => simp [hargs] at h
  | ok args =>
    simp only [hargs, bind_ok, pure_eq_ok, Except.ok.injEq] at h
    subst h
    unfold orElse
    split
    · exact readable_of_truthy ‹_›
    · exact readable_of_getProp hargs

theorem fetch_of_received {env : Env} {request : Request} {userApiKey : String} {data : Json}
    (h : Received env request userApiKey data) :
    IndexV2.fetch env request = IndexV2.dispatch env userApiKey data := by
  obtain ⟨hm, hk, hne, hp⟩ := h
  simp [IndexV2.fetch, hm, hk, hne, hp]

theorem dispatch_get {env : Env} {userApiKey : String} {data : Json}
    (h : IndexV2.resolveAction data = .ok (some (.str "get_all_bookings"))) :
    IndexV2.dispatch env userApiKey data =
      run env IndexV2.internalError (IndexV2.getAllBookings env userApiKey data) := by
  simp [IndexV2.dispatch, h, IndexV2.isAction, strictEq]

theorem dispatch_create {env : Env} {userApiKey : String} {data : Json}
    (h : IndexV2.resolveAction data = .ok (some (.str "create_booking"))) :
    IndexV2.dispatch env userApiKey data =
      run env IndexV2.internalError (IndexV2.createBooking env userApiKey data) := by
  simp [IndexV2.dispatch, h, IndexV2.isAction, strictEq]

theorem dispatch_cancel {env : Env} {userApiKey : String} {data : Json}
    (h : IndexV2.resolveAction data = .ok (some (.str "cancel_booking"))) :
    IndexV2.dispatch env userApiKey data =
      run env IndexV2.internalError (IndexV2.cancelBooking env userApiKey data) := by
  simp [IndexV2.dispatch, h, IndexV2.isAction, strictEq]

theorem dispatch_reschedule {env : Env} {userApiKey : String} {data : Json}
    (h : IndexV2.resolveAction data = .ok (some (.str "reschedule_booking"))) :
    IndexV2.dispatch env userApiKey data =
      run env IndexV2.internalError (IndexV2.rescheduleBooking env userApiKey data) := by
  simp [IndexV2.dispatch, h, IndexV2.isAction, strictEq]

theorem plan_error_of_validationMessage (env : Env) (userApiKey : String) (data : Json)
    (params : Value) (hparams : IndexV2.params data = .ok params) :
    (∀ message, validationMessage "get_all_bookings" params = some message →
      IndexV2.getAllBookings env userApiKey data = .error message) ∧
    (∀ message, validationMessage "create_booking" params = some message →
      IndexV2.createBooking env userApiKey data = .error message) ∧
    (∀ message, validationMessage "cancel_booking" params = some message →
      IndexV2.cancelBooking env userApiKey data = .error message) ∧
    (∀ message, validationMessage "reschedule_booking" params = some message →
      IndexV2.rescheduleBooking env userApiKey data = .error message) := by
  have hread := getProp_of_readable (readable_params hparams)
  refine ⟨?_, ?_, ?_, ?_⟩
  · intro message h
    simp only [validationMessage, if_true] at h
    simp only [IndexV2.getAllBookings, hparams, bind_ok, hread]
    split at h
    · simp_all
    · simp at h
  · intro message h
    simp only [validationMessage, if_true, String.reduceEq, if_false] at h
    simp only [IndexV2.createBooking, hparams, bind_ok, hread]
    split_ifs at h with h1 h2 h3 h4
    · simp_all
    · simp_all
    · simp_all
    · simp_all
    · split at h
      · split_ifs at h with h5
        simp_all
      · rename_i h6
        cases hp : member params "attendeePhone" with
        | none => simp [hp, truthy] at h4
        | some j =>
          cases j with
          | str s => exact absurd hp (h6 s)
          | _ => simp_all [truthy]
  · intro message h
    simp [validationMessage] at h
    simp only [IndexV2.cancelBooking, hparams, bind_ok, hread]
    simp [h]
  · intro message h
    simp only [validationMessage, if_true, String.reduceEq, if_false] at h
    simp only [IndexV2.rescheduleBooking, hparams, bind_ok, hread]
    split_ifs at h with h1 h2
    · simp_all
    · simp_all

/-- C1: in both revisions a `POST` whose key header is absent or empty is answered with
status 401 whatever its body is, valid JSON or not; the body is not read and no request
goes upstream. -/
theorem missing_key_unauthenticated (env : Env) (request : Request)
    (hmethod : request.method = "POST")
    (hkey : request.apiKey = none ∨ request.apiKey = some "") :
    ((Index.fetch env request).response.status = 401 ∧
      (Index.fetch env request).effects = []) ∧
    ((IndexV2.fetch env request).response.status = 401 ∧
      (IndexV2.fetch env request).effects = []) := by
  rcases hkey with h | h <;>
    simp [Index.fetch, IndexV2.fetch, hmethod, h, Index.missingKey, IndexV2.missingKey]

/-- C1 at a `POST` without the header whose body is not JSON. -/
theorem missing_key_unauthenticated_witness :
    ((Index.fetch (Example.platform [] (.error "unreachable"))
          ⟨"POST", none, "not json"⟩).response.status = 401 ∧
      (Index.fetch (Example.platform [] (.error "unreachable"))
          ⟨"POST", none, "not json"⟩).effects = []) ∧
    ((IndexV2.fetch (Example.platform [] (.error "unreachable"))
          ⟨"POST", none, "not json"⟩).response.status = 401 ∧
      (IndexV2.fetch (Example.platform [] (.error "unreachable"))
          ⟨"POST", none, "not json"⟩).effects = []) :=
  missing_key_unauthenticated (Example.platform [] (.error "unreachable"))
    ⟨"POST", none, "not json"⟩ rfl (Or.inl rfl)

/-- C2: an authenticated `POST` whose action resolves to `create_booking` and whose
`attendeePhone` is not a string that matches `^\+[1-9]\d{1,14}$` (missing, empty, not
a string or malformed) is answered with a failure whose body has the member `error`, and no
request goes upstream, whatever the other parameters are. -/
theorem create_booking_rejects_bad_phone (env : Env) (request : Request) (userApiKey : String)
    (data : Json) (params : Value)
    (hreq : Received env request userApiKey data)
    (haction : IndexV2.resolveAction data = .ok (some (.str "create_booking")))
    (hparams : IndexV2.params data = .ok params)
    (hbad : ∀ s, member params "attendeePhone" = some (.str s) → matchesE164 s = false) :
    ∃ message,
      (IndexV2.fetch env request).response =
          ⟨500, jsonHeaders, .json (.obj [("error", .str message)])⟩ ∧
        (IndexV2.fetch env request).effects = [.readBody] := by
  have hread := getProp_of_readable (readable_params hparams)
  rw [fetch_of_received hreq, dispatch_create haction]
  have hplan : ∃ message, IndexV2.createBooking env userApiKey data = .error message := by
    simp only [IndexV2.createBooking, hparams, bind_ok, hread]
    by_cases h1 : truthy (member params "eventTypeId") = true
    swap
    · exact ⟨_, by simp [h1]; rfl⟩
    by_cases h2 : truthy (member params "startTime") = true
    swap
    · exact ⟨_, by simp [h1, h2]; rfl⟩
    by_cases h3 : truthy (member params "attendeeName") = true
    swap
    · exact ⟨_, by simp [h1, h2, h3]; rfl⟩
    by_cases h4 : truthy (member params "attendeePhone") = true
    swap
    · exact ⟨_, by simp [h1, h2, h3, h4]; rfl⟩
    cases hp : member params "attendeePhone" with
    | none => simp [hp, truthy] at h4
    | some j =>
      cases j with
      | str s =>
        have := hbad s hp
        rw [hp] at h4
        exact ⟨_, by simp [h1, h2, h3, h4, hp, this]; rfl⟩
      | _ =>
        rw [hp] at h4
        exact ⟨_, by simp [h1, h2, h3, h4, hp]; rfl⟩
  obtain ⟨message, hplan⟩ := hplan
  exact ⟨message, by simp [hplan, run, IndexV2.internalError]⟩

/-- C2 at a `create_booking` whose phone has no leading `+`. -/
theorem create_booking_rejects_bad_phone_witness :
    ∃ message,
      (IndexV2.fetch (Example.platform [("create", Example.createWithoutPlus)]
            (.error "unreachable")) ⟨"POST", some "key", "create"⟩).response =
          ⟨500, jsonHeaders, .json (.obj [("error", .str message)])⟩ ∧
        (IndexV2.fetch (Example.platform [("create", Example.createWithoutPlus)]
            (.error "unreachable")) ⟨"POST", some "key", "create"⟩).effects = [.readBody] :=
  create_booking_rejects_bad_phone
    (Example.platform [("create", Example.createWithoutPlus)] (.error "unreachable"))
    ⟨"POST", some "key", "create"⟩ "key" Example.createWithoutPlus
    (some (.obj [("action", .str "create_booking"), ("eventTypeId", .str "12"),
      ("startTime", .str "2025-11-23T14:00:00Z"), ("attendeeName", .str "Jo"),
      ("attendeePhone", .str "15551234567")]))
    ⟨rfl, rfl, by decide, rfl⟩ rfl rfl
    (fun s h => by
      have hs : s = "15551234567" := by
        have h2 : some (Json.str "15551234567") = some (Json.str s) := h
        injection h2 with h3
        injection h3 with h4
        exact h4.symm
      subst hs
      rfl)

/-- C3, as the code has it: in the current revision every local validation failure
(`get_all_bookings` with neither `email` nor `phoneNumber`; `create_booking` without
`eventTypeId`, `startTime`, `attendeeName` or `attendeePhone`, or with a phone that is not
E.164; `cancel_booking` without `bookingUid`; `reschedule_booking` without `bookingUid` or
`newStartTime`) is answered with status 500 and the body `{error: <message>}`, and no request
goes upstream. -/
theorem validation_failure_internal_error (env : Env) (request : Request)
    (userApiKey : String) (data : Json) (params : Value) (action message : String)
    (hreq : Received env request userApiKey data)
    (haction : IndexV2.resolveAction data = .ok (some (.str action)))
    (hparams : IndexV2.params data = .ok params)
    (hfail : validationMessage action params = some message) :
    (IndexV2.fetch env request).response =
        ⟨500, jsonHeaders, .json (.obj [("error", .str message)])⟩ ∧
      (IndexV2.fetch env request).effects = [.readBody] := by
  obtain ⟨hget, hcreate, hcancel, hreschedule⟩ :=
    plan_error_of_validationMessage env userApiKey data params hparams
  rw [fetch_of_received hreq]
  by_cases a1 : action = "get_all_bookings"
  · subst a1
    rw [dispatch_get haction, hget message hfail]
    exact ⟨rfl, rfl⟩
  by_cases a2 : action = "create_booking"
  · subst a2
    rw [dispatch_create haction, hcreate message hfail]
    exact ⟨rfl, rfl⟩
  by_cases a3 : action = "cancel_booking"
  · subst a3
    rw [dispatch_cancel haction, hcancel message hfail]
    exact ⟨rfl, rfl⟩
  by_cases a4 : action = "reschedule_booking"
  · subst a4
    rw [dispatch_reschedule haction, hreschedule message hfail]
    exact ⟨rfl, rfl⟩
  simp [validationMessage, a1, a2, a3, a4] at hfail

/-- C3, as the code has it, at a `cancel_booking` without `bookingUid`. -/
theorem validation_failure_internal_error_witness :
    (IndexV2.fetch (Example.platform [("cancel", Example.cancelWithoutUid)]
          (.error "unreachable")) ⟨"POST", some "key", "cancel"⟩).response =
        ⟨500, jsonHeaders, .json (.obj [("error", .str "Missing 'bookingUid' parameter.")])⟩ ∧
      (IndexV2.fetch (Example.platform [("cancel", Example.cancelWithoutUid)]
          (.error "unreachable")) ⟨"POST", some "key", "cancel"⟩).effects = [.readBody] :=
  validation_failure_internal_error
    (Example.platform [("cancel", Example.cancelWithoutUid)] (.error "unreachable"))
    ⟨"POST", some "key", "cancel"⟩ "key" Example.cancelWithoutUid
    (some Example.cancelWithoutUid) "cancel_booking" "Missing 'bookingUid' parameter."
    ⟨rfl, rfl, by decide, rfl⟩ rfl rfl rfl

/-- C3 fails as stated: a `cancel_booking` without `bookingUid` is a local validation
failure and its status is 500, not 400. -/
theorem validation_failure_not_400 :
    validationMessage "cancel_booking" (some Example.cancelWithoutUid) =
        some "Missing 'bookingUid' parameter." ∧
      (IndexV2.fetch (Example.platform [("cancel", Example.cancelWithoutUid)]
          (.error "unreachable")) ⟨"POST", some "key", "cancel"⟩).response.status = 500 ∧
      (IndexV2.fetch (Example.platform [("cancel", Example.cancelWithoutUid)]
          (.error "unreachable")) ⟨"POST", some "key", "cancel"⟩).response.status ≠ 400 := by
  refine ⟨rfl, rfl, ?_⟩
  decide

/-- C7 at an upstream answer 502 whose body is not JSON: `cancel_booking`, `create_booking`
and `reschedule_booking` answer 500 with the message of the parse failure, where
`get_all_bookings` echoes the status 502 and the upstream body under `details`. -/
theorem upstream_error_not_json :
    (IndexV2.fetch (Example.platform [("cancel", Example.cancelScenario)]
          (.ok ⟨502, "Bad Gateway"⟩)) ⟨"POST", some "key", "cancel"⟩).response =
      ⟨500, jsonHeaders, .json (.obj [("error", .str "Unexpected token")])⟩ ∧
    (IndexV2.fetch (Example.platform [("create", Example.createScenario)]
          (.ok ⟨502, "Bad Gateway"⟩)) ⟨"POST", some "key", "create"⟩).response =
      ⟨500, jsonHeaders, .json (.obj [("error", .str "Unexpected token")])⟩ ∧
    (IndexV2.fetch (Example.platform [("reschedule", Example.rescheduleScenario)]
          (.ok ⟨502, "Bad Gateway"⟩)) ⟨"POST", some "key", "reschedule"⟩).response =
      ⟨500, jsonHeaders, .json (.obj [("error", .str "Unexpected token")])⟩ ∧
    (IndexV2.fetch (Example.platform [("list", Example.listByEmail)]
          (.ok ⟨502, "Bad Gateway"⟩)) ⟨"POST", some "key", "list"⟩).response =
      ⟨502, jsonHeaders, .json (.obj [("error", .str "Cal.com API error: 502"),
        ("details", .str "Bad Gateway")])⟩ :=
  ⟨rfl, rfl, rfl, rfl⟩

end CalPal
